import Mathlib

/-
Verification development for the Dataproc monitoring agent core
(baseline/anomaly-detection and report-synthesis engine).

Embedding conventions:
- Python floats are modelled as rationals; numeric JSON metric values are
  modelled as optional rationals (a value of a non-numeric shape behaves
  like an absent value for the detectors, which coerce through float()).
- Python None-able values are modelled with Option; Python truthiness on a
  numeric value x is x bewteen none and nonzero, on a string nonemptiness.
- Fallible code paths are modelled with Option / Except.
- Decimal text rendering of numbers inside human-readable messages is
  modelled by total formatting functions over rationals (qround-based);
  the exact float-to-decimal behaviour of CPython is abstracted there.
-/

/-- floor of a rational plus one half, used for fixed-point decimal rendering. -/
def qround (q : ℚ) : ℤ :=
  Int.fdiv (q.num * 2 + (q.den : ℤ)) ((q.den : ℤ) * 2)

/-- Render a rational with one decimal place (models the Python format spec .1f). -/
def fmt1 (q : ℚ) : String :=
  let n := qround (q * 10)
  let sign := if n < 0 then "-" else ""
  sign ++ toString (n.natAbs / 10) ++ "." ++ toString (n.natAbs % 10)

/-- Render a rational with two decimal places (models the Python format spec .2f). -/
def fmt2 (q : ℚ) : String :=
  let n := qround (q * 100)
  let sign := if n < 0 then "-" else ""
  let r := n.natAbs % 100
  sign ++ toString (n.natAbs / 100) ++ "." ++ (if r < 10 then "0" else "") ++ toString r

/-- Render a rational as a whole percentage (models the Python format spec .0%). -/
def fmtPct (q : ℚ) : String :=
  toString (qround (q * 100)) ++ "%"

/-- Plain numeric rendering used where Python interpolates a number without a
format spec; the int/float repr distinction of CPython is abstracted. -/
def pyNum (q : ℚ) : String := fmt1 q

/-- Python truthiness of an optional string (None and the empty string are falsy). -/
def strTruthy : Option String → Bool
  | none => false
  | some s => s ≠ ""

/-- Python: left or right, where left is an optional string (None / empty falsy). -/
def strOr (o : Option String) (d : String) : String :=
  match o with
  | none => d
  | some s => if s = "" then d else s

/-- First truthy string of a preference list, else the empty string
(models the loop in SparkRunState.primary_job_id). -/
def firstTruthy : List (Option String) → String
  | [] => ""
  | o :: rest =>
    match o with
    | some s => if s = "" then firstTruthy rest else s
    | none => firstTruthy rest

/-- JSON-like values, used for the evidence dictionaries attached to findings
and for opaque nested metric blobs carried by a fact. -/
inductive JVal where
  | null
  | bool (b : Bool)
  | num (q : ℚ)
  | str (s : String)
  | arr (items : List JVal)
  | obj (fields : List (String × JVal))

/-- Evidence helper: an optional rational rendered as a JSON number or null. -/
def jnumOpt : Option ℚ → JVal
  | none => JVal.null
  | some q => JVal.num q

/-- Evidence helper: an optional string rendered as a JSON string or null. -/
def jstrOpt : Option String → JVal
  | none => JVal.null
  | some s => JVal.str s

/-- Association-list lookup mirroring a Python dict read (first binding wins). -/
def evLookup : List (String × JVal) → String → Option JVal
  | [], _ => none
  | (k, v) :: rest, key => if k = key then some v else evLookup rest key

/-- analytics/performance_memory.py BaselineStats (trailing per-logical-job statistics). -/
structure BaselineStats where
  job_id : String
  job_type : String
  cluster_name : String
  p50_duration : Option ℚ
  p95_duration : Option ℚ
  avg_duration : Option ℚ
  p50_app_vcore_seconds : Option ℚ
  p95_app_vcore_seconds : Option ℚ
  avg_app_vcore_seconds : Option ℚ
  p50_app_memory_gb_seconds : Option ℚ
  p95_app_memory_gb_seconds : Option ℚ
  avg_app_memory_gb_seconds : Option ℚ
  avg_max_over_median_ratio : Option ℚ
  p95_task_duration_ms : Option ℚ
  run_count : ℕ

/-- The three-key cost summary dict built by SparkRunState.cost_summary and read
back through safe float coercion by the detectors. -/
structure CostSummary where
  app_vcore_seconds : Option ℚ
  app_memory_gb_seconds : Option ℚ
  executor_peak : Option ℚ

/-- The cluster profile dict read by detect_cluster_rightsizing. -/
structure ClusterProfile where
  total_workers : Option ℚ
  autoscaling_enabled : Bool

/-- One entry of the nested jobs list inside spark_event_metrics. -/
structure SMJob where
  max_over_median_ratio : Option ℚ
  job_id : Option String
  job_name : Option String
  name : Option String
  num_tasks : Option ℚ
  job_duration_ms : Option ℚ
  p95_task_duration_ms : Option ℚ
  max_task_duration_ms : Option ℚ

/-- One entry of the nested stages list inside spark_event_metrics; the two
historical key spellings for each field are modelled as one resolved field. -/
structure SMStage where
  stage_id : Option ℚ
  name : Option String
  num_tasks : Option ℚ
  max_task_duration_ms : Option ℚ
  p95_task_duration_ms : Option ℚ

/-- The app sub-dict of spark_event_metrics used by cost_summary and the snippet. -/
structure AppMetrics where
  app_id : Option String
  app_name : Option String
  app_duration_ms : Option ℚ
  executor_peak : Option ℚ
  app_vcore_seconds : Option ℚ
  app_memory_gb_seconds : Option ℚ

/-- The spark_event_metrics dict; an absent or empty (falsy) dict is modelled by
wrapping this structure in Option at each use site. -/
structure SparkEventMetrics where
  app : Option AppMetrics
  jobs : Option (List SMJob)
  stages : Option (List SMStage)

/-- analytics/anomaly_detection.py Anomaly. -/
structure Anomaly where
  kind : String
  severity : String
  message : String
  evidence : List (String × JVal)
  action : Option String

/-- Snapshot of the baseline embedded into the anomaly payload by the synthesizer. -/
structure BaselineSnapshot where
  p50_duration : Option ℚ
  p95_duration : Option ℚ
  avg_duration : Option ℚ
  avg_app_vcore_seconds : Option ℚ
  avg_app_memory_gb_seconds : Option ℚ
  avg_max_over_median_ratio : Option ℚ
  p95_task_duration_ms : Option ℚ
  run_count : ℕ

/-- The JSON-ready dict returned by synthesize_anomaly_flags. -/
structure AnomalyPayload where
  findings : List Anomaly
  cost_summary : CostSummary
  baseline_reference : Option BaselineSnapshot
  job_family : Option String
  run_identifier : Option String
  recommendations : List String
  has_issues : Bool

/-- repositories/bigquery_repository.py DataprocFact; anomaly_flags is none while
the fact is under construction (the empty dict) and some payload afterwards. -/
structure DataprocFact where
  ingest_date : String
  ingest_timestamp : String
  project_id : String
  region : String
  cluster_name : String
  job_id : String
  job_type : String
  job_state : String
  job_start_time : Option String
  job_end_time : Option String
  duration_seconds : Option ℚ
  yarn_application_ids : List String
  cluster_metrics : List (String × JVal)
  job_metrics : Option SparkEventMetrics
  driver_log_excerpt : Option String
  yarn_log_excerpt : Option String
  spark_event_snippet : Option String
  anomaly_flags : Option AnomalyPayload

/-- analytics/anomaly_detection.py detect_job_runtime_anomaly. -/
def detect_job_runtime_anomaly (fact : DataprocFact) (baseline : Option BaselineStats) :
    Option Anomaly :=
  match fact.duration_seconds with
  | none => none
  | some dur =>
    if dur = 0 ∨ dur ≤ 0 then none
    else
      match baseline with
      | none => none
      | some b =>
        match b.p50_duration with
        | none => none
        | some p50 =>
          if p50 = 0 then none
          else
            let ratio := dur / p50
            if ratio < 3 / 2 then none
            else
              let delta := dur - p50
              let severity := if ratio ≥ 2 then "critical" else "warning"
              some
                { kind := "job_runtime_regression"
                  severity := severity
                  message :=
                    "Runtime " ++ fmt1 dur ++ "s vs baseline median " ++ fmt1 p50 ++
                    "s (+" ++ fmt1 delta ++ "s, " ++ fmt1 ratio ++ "x slower)."
                  evidence :=
                    [("job_id", JVal.str fact.job_id),
                     ("duration_seconds", JVal.num dur),
                     ("baseline_p50_seconds", JVal.num p50),
                     ("baseline_p95_seconds", jnumOpt b.p95_duration),
                     ("baseline_run_count", JVal.num (b.run_count : ℚ))]
                  action := some
                    ("Review recent code/input changes and examine the heaviest Spark stages; " ++
                     "consider optimising joins or repartitioning to recover the baseline runtime.") }

/-- _extract_stage_lookup: keep stage entries carrying a stage id. -/
def extractStageLookup (spark_metrics : Option SparkEventMetrics) : List SMStage :=
  match spark_metrics with
  | none => []
  | some m =>
    match m.stages with
    | none => []
    | some stages => stages.filter (fun s => s.stage_id.isSome)

/-- _locate_stage_hint: pick the stage with the highest score, where the score is
the max task duration, boosted by the max-over-p95 ratio when that exceeds one. -/
def locateStageHint (stages : List SMStage) : Option SMStage :=
  (stages.foldl
    (fun (acc : Option SMStage × ℚ) stage =>
      match stage.max_task_duration_ms with
      | none => acc
      | some maxd =>
        let ratio : Option ℚ :=
          match stage.p95_task_duration_ms with
          | some p95 => if p95 = 0 then none else some (maxd / p95)
          | none => none
        let score :=
          match ratio with
          | some r => if 1 < r then maxd * r else maxd
          | none => maxd
        if acc.2 < score then (some stage, score) else acc)
    (none, -1)).1

/-- analytics/anomaly_detection.py detect_task_straggler. -/
def detect_task_straggler (fact : DataprocFact) (spark_metrics : Option SparkEventMetrics) :
    Option Anomaly :=
  match spark_metrics with
  | none => none
  | some m =>
    match m.jobs with
    | none => none
    | some jobs =>
      let pick : Option SMJob × Option ℚ :=
        jobs.foldl
          (fun acc job =>
            match job.max_over_median_ratio with
            | none => acc
            | some ratio =>
              if ratio ≤ 3 then acc
              else
                match acc with
                | (none, _) => (some job, some ratio)
                | (some _, rv) => if (rv.getD 0) < ratio then (some job, some ratio) else acc)
          (none, none)
      match pick with
      | (none, _) => none
      | (_, none) => none
      | (some candidate, some ratio_value) =>
        let severity := if ratio_value ≥ 5 then "critical" else "warning"
        let job_identifier := strOr candidate.job_id fact.job_id
        let job_name : Option String :=
          if strTruthy candidate.job_name then candidate.job_name
          else if strTruthy candidate.name then candidate.name
          else none
        let stage_hint := locateStageHint (extractStageLookup spark_metrics)
        let stage_message :=
          match stage_hint with
          | none => ""
          | some st =>
            " Most affected stage " ++ pyNum (st.stage_id.getD 0) ++ " (" ++
            strOr st.name "None" ++ ") has max task " ++
            pyNum (st.max_task_duration_ms.getD 0) ++ "ms vs median " ++
            pyNum (st.p95_task_duration_ms.getD 0) ++ "ms."
        let stage_evidence : List (String × JVal) :=
          match stage_hint with
          | none => []
          | some st =>
            [("stage_id", jnumOpt st.stage_id),
             ("stage_name", jstrOpt st.name),
             ("max_task_duration_ms", jnumOpt st.max_task_duration_ms),
             ("p95_task_duration_ms", jnumOpt st.p95_task_duration_ms),
             ("num_tasks", jnumOpt st.num_tasks)]
        let job_label := strOr job_name job_identifier
        let action :=
          match stage_hint with
          | some st =>
            "Target stage " ++ pyNum (st.stage_id.getD 0) ++ " (" ++ strOr st.name "None" ++
            ") - repartition or salt the skewed key and review shuffle parallelism to balance task runtimes."
          | none =>
            "Investigate skewed partitions within this job; adjust partitioning or salt skewed keys " ++
            "to balance task runtimes."
        some
          { kind := "task_straggler_detected"
            severity := severity
            message :=
              "Spark job " ++ job_label ++ " shows task skew (max/median ratio " ++
              fmt2 ratio_value ++ ")." ++ stage_message
            evidence :=
              [("job_id", JVal.str job_identifier),
               ("ratio", JVal.num ratio_value),
               ("num_tasks", jnumOpt candidate.num_tasks),
               ("p95_task_duration_ms", jnumOpt candidate.p95_task_duration_ms),
               ("max_task_duration_ms", jnumOpt candidate.max_task_duration_ms),
               ("stage", if stage_evidence.isEmpty then JVal.null else JVal.obj stage_evidence)]
            action := some action }

/-- The candidate (metric name, current, baseline average) triples collected by
detect_cost_regression: a metric enters when its current value is numeric and
its baseline average is truthy (present and nonzero), vcore seconds first. -/
def costEntries (b : BaselineStats) (cs : CostSummary) : List (String × ℚ × ℚ) :=
  (match cs.app_vcore_seconds, b.avg_app_vcore_seconds with
   | some cur, some base => if base = 0 then [] else [("vcore_seconds", cur, base)]
   | _, _ => []) ++
  (match cs.app_memory_gb_seconds, b.avg_app_memory_gb_seconds with
   | some cur, some base => if base = 0 then [] else [("memory_gb_seconds", cur, base)]
   | _, _ => [])

/-- The loop body of detect_cost_regression: skip non-positive baselines and
modest ratios, then keep the entry with the strictly highest ratio. -/
def costStep (acc : Option (String × ℚ × ℚ) × ℚ) (entry : String × ℚ × ℚ) :
    Option (String × ℚ × ℚ) × ℚ :=
  if entry.2.2 ≤ 0 then acc
  else
    let ratio := entry.2.1 / entry.2.2
    if ratio ≤ 13 / 10 then acc
    else if acc.2 < ratio then (some entry, ratio) else acc

/-- The dominant-metric selection loop of detect_cost_regression. -/
def costSelect (l : List (String × ℚ × ℚ)) : Option (String × ℚ × ℚ) × ℚ :=
  l.foldl costStep (none, 0)

/-- analytics/anomaly_detection.py detect_cost_regression. -/
def detect_cost_regression (fact : DataprocFact) (baseline : Option BaselineStats)
    (cost_summary : Option CostSummary) : Option Anomaly :=
  match baseline, cost_summary with
  | some b, some cs =>
    match costSelect (costEntries b cs) with
    | (none, _) => none
    | (some entry, ratio_dominant) =>
      let metric_name := entry.1
      let current_value := entry.2.1
      let baseline_value := entry.2.2
      let severity := if ratio_dominant < 7 / 4 then "warning" else "critical"
      let diff := current_value - baseline_value
      let metric_label := if metric_name = "vcore_seconds" then "vcore seconds" else "memory gb seconds"
      some
        { kind := "cost_regression"
          severity := severity
          message :=
            metric_label ++ " " ++ fmt1 current_value ++ " vs avg " ++ fmt1 baseline_value ++
            " (+" ++ fmt1 diff ++ ", " ++ fmt2 ratio_dominant ++ "x)."
          evidence :=
            [("metric", JVal.str metric_name),
             ("current", JVal.num current_value),
             ("baseline_average", JVal.num baseline_value),
             ("ratio", JVal.num ratio_dominant)]
          action := some
            ("Review executor sizing and input volume; " ++ metric_label ++ " rose " ++
             fmt2 ratio_dominant ++ "x over baseline.") }
  | _, _ => none

/-- analytics/anomaly_detection.py detect_cluster_rightsizing. -/
def detect_cluster_rightsizing (fact : DataprocFact) (cluster_profile : Option ClusterProfile)
    (cost_summary : Option CostSummary) : Option Anomaly :=
  match cluster_profile, cost_summary with
  | some cp, some cs =>
    match cp.total_workers with
    | none => none
    | some tw =>
      if tw = 0 ∨ tw ≤ 0 then none
      else
        match cs.executor_peak with
        | none => none
        | some executor_peak =>
          let utilization := executor_peak / tw
          let evidence : List (String × JVal) :=
            [("executor_peak", JVal.num executor_peak),
             ("total_workers", JVal.num tw),
             ("autoscaling_enabled", JVal.bool cp.autoscaling_enabled)]
          if utilization < 9 / 20 then
            some
              { kind := "cluster_underutilized"
                severity := "info"
                message :=
                  "Cluster " ++ fact.cluster_name ++ " used only " ++ fmtPct utilization ++
                  " of provisioned workers (peak executors " ++ fmt1 executor_peak ++
                  " vs " ++ pyNum tw ++ ")."
                evidence := evidence
                action := some
                  ("Right-size the cluster: consider reducing worker count or enabling autoscaling to " ++
                   "match observed executor demand.") }
          else if utilization ≥ 19 / 20 then
            some
              { kind := "cluster_capacity_near_limit"
                severity := "warning"
                message :=
                  "Cluster " ++ fact.cluster_name ++ " saturated provisioned workers (peak executors " ++
                  fmt1 executor_peak ++ " vs " ++ pyNum tw ++ ")."
                evidence := evidence
                action := some
                  "Consider increasing worker capacity or enabling autoscaling to prevent executor saturation." }
          else none
  | _, _ => none

/-- The baseline snapshot embedded into the payload by synthesize_anomaly_flags. -/
def baselineSnapshotOf (b : BaselineStats) : BaselineSnapshot :=
  { p50_duration := b.p50_duration
    p95_duration := b.p95_duration
    avg_duration := b.avg_duration
    avg_app_vcore_seconds := b.avg_app_vcore_seconds
    avg_app_memory_gb_seconds := b.avg_app_memory_gb_seconds
    avg_max_over_median_ratio := b.avg_max_over_median_ratio
    p95_task_duration_ms := b.p95_task_duration_ms
    run_count := b.run_count }

/-- analytics/anomaly_detection.py synthesize_anomaly_flags. -/
def synthesize_anomaly_flags (fact : DataprocFact) (baseline : Option BaselineStats)
    (spark_metrics : Option SparkEventMetrics) (cost_summary : Option CostSummary)
    (cluster_profile : Option ClusterProfile) (job_family : Option String)
    (run_identifier : Option String) : AnomalyPayload :=
  let findings :=
    (match detect_job_runtime_anomaly fact baseline with
     | some a => [a]
     | none => []) ++
    (match detect_task_straggler fact spark_metrics with
     | some a => [a]
     | none => []) ++
    (match detect_cost_regression fact baseline cost_summary with
     | some a => [a]
     | none => []) ++
    (match detect_cluster_rightsizing fact cluster_profile cost_summary with
     | some a => [a]
     | none => [])
  { findings := findings
    cost_summary := cost_summary.getD { app_vcore_seconds := none, app_memory_gb_seconds := none, executor_peak := none }
    baseline_reference := baseline.map baselineSnapshotOf
    job_family := job_family
    run_identifier := run_identifier
    recommendations := findings.filterMap (fun f => f.action)
    has_issues := findings.any (fun f => f.severity = "warning" || f.severity = "critical") }

/-- Lowercase hex digit as in the character class of the stripping pattern. -/
def isHexLower (c : Char) : Bool :=
  (decide ('0' ≤ c) && decide (c ≤ '9')) || (decide ('a' ≤ c) && decide (c ≤ 'f'))

/-- Leftmost match of the anchored pattern: an underscore followed by six or more
lowercase hex characters running to the end of the string. Returns the character
run before the matched underscore, or none when no position matches. -/
def stripSuffixChars : List Char → Option (List Char)
  | [] => none
  | c :: rest =>
    if c = '_' ∧ 6 ≤ rest.length ∧ rest.all isHexLower then some []
    else
      match stripSuffixChars rest with
      | some kept => some (c :: kept)
      | none => none

/-- The logical job id of the baseline SQL in load_baselines: strip a trailing
underscore-plus-6-or-more-hex suffix, falling back to the raw job id when the
stripped result would be empty. -/
def logical_job_id (jobId : String) : String :=
  match stripSuffixChars jobId.data with
  | none => jobId
  | some [] => jobId
  | some kept => String.mk kept

/-- The key set of the map returned by load_baselines: one entry per distinct
logical job id of the qualifying history rows (grouping happens in the SQL;
the statistics themselves are computed by the external warehouse). -/
def baselineMapKeys (historyJobIds : List String) : List String :=
  (historyJobIds.map logical_job_id).dedup

/-- Association-list lookup with string keys, mirroring a Python dict .get. -/
def lookupBaseline : List (String × BaselineStats) → String → Option BaselineStats
  | [], _ => none
  | (k, v) :: rest, key => if k = key then some v else lookupBaseline rest key

/-- A stored run timestamp field, modelled by the outcome of the external
datetime.fromisoformat call on it: absent (None or empty string), unparseable
(ValueError), or parsed into a wall-clock reading in seconds together with an
optional UTC offset in seconds. -/
inductive TsField where
  | missing
  | unparseable (raw : String)
  | parsed (raw : String) (wall : ℚ) (tz : Option ℚ)

/-- The raw stored string of a timestamp field, as kept on the assembled fact. -/
def TsField.raw? : TsField → Option String
  | TsField.missing => none
  | TsField.unparseable raw => some raw
  | TsField.parsed raw _ _ => some raw

/-- repositories/run_state_repository.py SparkRunState. -/
structure SparkRunState where
  run_date : Option String
  application_start_time : TsField
  application_end_time : TsField
  status : Option String
  dataproc_jobid : Option String
  dataproc_cluster_uuid : Option String
  spark_taskid : Option String
  spark_jobid : Option String
  cluster_config_details : List (String × JVal)
  log_location : Option String
  application_id : Option String
  spark_event_metrics : Option SparkEventMetrics

/-- SparkRunState.cluster_name: the dataproc job id, empty-defaulted and trimmed. -/
def SparkRunState.cluster_name (r : SparkRunState) : String :=
  (r.dataproc_jobid.getD "").trim

/-- SparkRunState.primary_job_id: first truthy of spark_jobid, application_id,
spark_taskid, else the empty string. -/
def SparkRunState.primary_job_id (r : SparkRunState) : String :=
  firstTruthy [r.spark_jobid, r.application_id, r.spark_taskid]

/-- SparkRunState.duration_seconds: none when either timestamp is absent or fails
to parse; otherwise the end-minus-start difference in seconds, interpreting a
timestamp without timezone info as UTC, clamped below at zero. -/
def SparkRunState.duration_seconds (r : SparkRunState) : Option ℚ :=
  match r.application_start_time, r.application_end_time with
  | TsField.missing, _ => none
  | _, TsField.missing => none
  | TsField.unparseable _, _ => none
  | _, TsField.unparseable _ => none
  | TsField.parsed _ ws tzs, TsField.parsed _ we tze =>
    let start := ws - tzs.getD 0
    let stop := we - tze.getD 0
    some (max (stop - start) 0)

/-- SparkRunState.cost_summary: the three-key dict pulled from the nested app metrics. -/
def SparkRunState.cost_summary (r : SparkRunState) : CostSummary :=
  match r.spark_event_metrics with
  | none => { app_vcore_seconds := none, app_memory_gb_seconds := none, executor_peak := none }
  | some m =>
    match m.app with
    | none => { app_vcore_seconds := none, app_memory_gb_seconds := none, executor_peak := none }
    | some app =>
      { app_vcore_seconds := app.app_vcore_seconds
        app_memory_gb_seconds := app.app_memory_gb_seconds
        executor_peak := app.executor_peak }

/-- The configuration slice consumed by _build_fact. -/
structure MonitoringConfigM where
  project_id : String
  region : String

/-- tools/dataproc_pipeline.py _format_spark_event_snippet. -/
def formatSparkEventSnippet (metrics : Option SparkEventMetrics) : Option String :=
  match metrics with
  | none => none
  | some m =>
    let appLines : List String :=
      match m.app with
      | none => []
      | some app =>
        let head :=
          "Application " ++ strOr app.app_name "unknown" ++ " (" ++ strOr app.app_id "n/a" ++
          ") duration=" ++ (match app.app_duration_ms with
                            | some d => pyNum d
                            | none => "n/a") ++
          "ms executors=" ++ (match app.executor_peak with
                              | some e => pyNum e
                              | none => "n/a")
        let resources :=
          if app.app_vcore_seconds.isSome || app.app_memory_gb_seconds.isSome then
            ["  Resource usage: vcore_seconds=" ++
              (match app.app_vcore_seconds with
               | some v => fmt2 v
               | none => "None") ++
             " memory_gb_seconds=" ++
              (match app.app_memory_gb_seconds with
               | some v => fmt2 v
               | none => "None")]
          else []
        head :: resources
    let jobLines : List String :=
      match m.jobs with
      | none => []
      | some [] => []
      | some (first_job :: _) =>
        let line :=
          "  Job " ++ strOr first_job.job_id "n/a" ++ " tasks=" ++
          (match first_job.num_tasks with
           | some t => pyNum t
           | none => "n/a") ++
          " duration=" ++
          (match first_job.job_duration_ms with
           | some d => pyNum d
           | none => "n/a") ++
          "ms p95=" ++
          (match first_job.p95_task_duration_ms with
           | some p => pyNum p
           | none => "n/a") ++ "ms"
        let ratioLines :=
          match first_job.max_over_median_ratio with
          | some r => ["    Straggler ratio: " ++ fmt2 r]
          | none => []
        line :: ratioLines
    let lines := appLines ++ jobLines
    if lines.isEmpty then none
    else some ((String.intercalate "\n" lines).take 6000)

/-- tools/dataproc_pipeline.py _build_fact: assemble the immutable fact for one
run and synthesize its anomaly payload. The baseline is resolved with the run
primary job id exactly as written at the lookup line of the source. -/
def buildFact (config : MonitoringConfigM) (asOfDate asOfTs : String)
    (run : SparkRunState) (baselines : List (String × BaselineStats)) :
    DataprocFact × Bool :=
  let job_id := run.primary_job_id
  let duration_seconds := run.duration_seconds
  let fact0 : DataprocFact :=
    { ingest_date := asOfDate
      ingest_timestamp := asOfTs
      project_id := config.project_id
      region := config.region
      cluster_name := if run.cluster_name = "" then "unknown" else run.cluster_name
      job_id := job_id
      job_type := "SPARK"
      job_state := strOr run.status "UNKNOWN"
      job_start_time := run.application_start_time.raw?
      job_end_time := run.application_end_time.raw?
      duration_seconds := duration_seconds
      yarn_application_ids := if strTruthy run.application_id then [run.application_id.getD ""] else []
      cluster_metrics :=
        [("cluster_config_details", JVal.obj run.cluster_config_details),
         ("dataproc_cluster_uuid", jstrOpt run.dataproc_cluster_uuid)]
      job_metrics := run.spark_event_metrics
      driver_log_excerpt := run.log_location
      yarn_log_excerpt := none
      spark_event_snippet := formatSparkEventSnippet run.spark_event_metrics
      anomaly_flags := none }
  let baseline := lookupBaseline baselines job_id
  let payload :=
    synthesize_anomaly_flags fact0 baseline run.spark_event_metrics
      (some run.cost_summary) none none none
  ({ fact0 with anomaly_flags := some payload }, payload.has_issues)

/-- The fact-assembly loop of build_performance_memory: fold the per-run builder
over the ingested runs, accumulating facts and the any-anomaly flag. The builder
is fallible, and in the source a raised exception propagates out of the loop
undisturbed, which this Except-threading makes explicit. -/
def assembleFacts {α β ε : Type} (buildOne : α → Except ε (β × Bool)) (runs : List α) :
    Except ε (List β × Bool) :=
  runs.foldl
    (fun acc run =>
      match acc with
      | Except.error e => Except.error e
      | Except.ok (facts, has) =>
        match buildOne run with
        | Except.error e => Except.error e
        | Except.ok (fact, issue) => Except.ok (facts ++ [fact], has || issue))
    (Except.ok ([], false))

/-- reporting/report_builder.py severity rank table (unknown severities rank 3). -/
def severity_rank (s : String) : ℕ :=
  if s = "critical" then 0
  else if s = "warning" then 1
  else if s = "info" then 2
  else 3

/-- Truthiness of the has_issues entry of a fact anomaly payload. -/
def hasIssuesOf (f : DataprocFact) : Bool :=
  match f.anomaly_flags with
  | none => false
  | some p => p.has_issues

/-- The findings list of a fact anomaly payload, defaulting to the empty list. -/
def findingsOf (f : DataprocFact) : List Anomaly :=
  match f.anomaly_flags with
  | none => []
  | some p => p.findings

/-- The job family of a fact: the payload job_family, falling back to the fact
job id when absent or empty (Python or-fallback). -/
def familyOf (f : DataprocFact) : String :=
  match f.anomaly_flags with
  | none => f.job_id
  | some p => strOr p.job_family f.job_id

/-- The recommendations list of a fact anomaly payload, defaulting to empty. -/
def recommendationsOf (f : DataprocFact) : List String :=
  match f.anomaly_flags with
  | none => []
  | some p => p.recommendations

/-- The run identifier of a fact: the payload run_identifier, falling back to
the fact job id (Python or-fallback). -/
def runIdentifierOf (f : DataprocFact) : String :=
  match f.anomaly_flags with
  | none => f.job_id
  | some p => strOr p.run_identifier f.job_id

/-- One value of the grouped dict of the report builder. -/
structure GroupEntry where
  rank : ℕ
  severity : String
  finding : Anomaly
  fact : DataprocFact

/-- Association-list lookup on the grouped dict. -/
def lookupGE : List (String × GroupEntry) → String → Option GroupEntry
  | [], _ => none
  | (k, v) :: rest, key => if k = key then some v else lookupGE rest key

/-- Update-or-append on the grouped dict, keeping the insertion position of an
existing key as a Python dict does. -/
def setGE : List (String × GroupEntry) → String → GroupEntry → List (String × GroupEntry)
  | [], key, e => [(key, e)]
  | (k, v) :: rest, key, e =>
    if k = key then (k, e) :: rest else (k, v) :: setGE rest key e

/-- The per-finding step of the grouping loop: keep the incumbent unless the new
finding has a strictly lower severity rank. -/
def groupFinding (fam : String) (fact : DataprocFact)
    (g : List (String × GroupEntry)) (finding : Anomaly) : List (String × GroupEntry) :=
  let rank := severity_rank finding.severity
  match lookupGE g fam with
  | none => setGE g fam { rank := rank, severity := finding.severity, finding := finding, fact := fact }
  | some current =>
    if rank < current.rank then
      setGE g fam { rank := rank, severity := finding.severity, finding := finding, fact := fact }
    else g

/-- The per-fact step of the grouping loop: skip facts with no findings, then
fold the findings under the fact job family. -/
def groupFact (g : List (String × GroupEntry)) (fact : DataprocFact) :
    List (String × GroupEntry) :=
  if (findingsOf fact).isEmpty then g
  else (findingsOf fact).foldl (groupFinding (familyOf fact) fact) g

/-- The grouped dict of build_status_report: fold the has-issues facts. -/
def buildGrouped (facts : List DataprocFact) : List (String × GroupEntry) :=
  (facts.filter hasIssuesOf).foldl groupFact []

/-- Stable insertion into a rank-sorted list: the new entry goes after every
already placed entry of equal or lower rank. -/
def insertByRank (x : String × GroupEntry) :
    List (String × GroupEntry) → List (String × GroupEntry)
  | [] => [x]
  | y :: ys => if y.2.rank ≤ x.2.rank then y :: insertByRank x ys else x :: y :: ys

/-- Stable sort of the grouped items by severity rank (Python sorted with a rank
key is a stable sort). -/
def sortByRank (l : List (String × GroupEntry)) : List (String × GroupEntry) :=
  l.foldl (fun acc x => insertByRank x acc) []

/-- One rendered line of the regressions block. -/
def regressionLine (fam : String) (e : GroupEntry) : String :=
  let run_identifier := runIdentifierOf e.fact
  let baseline_snippet :=
    match e.fact.anomaly_flags with
    | none => ""
    | some p =>
      match p.baseline_reference with
      | none => ""
      | some br =>
        match br.p50_duration with
        | none => ""
        | some p50 =>
          if p50 = 0 ∨ br.run_count = 0 then ""
          else
            " (baseline median " ++ fmt1 p50 ++ "s over " ++ toString br.run_count ++ " runs)"
  "- " ++ fam ++ " (latest run " ++ run_identifier ++ ") on cluster " ++
  e.fact.cluster_name ++ ": " ++ e.finding.message ++ baseline_snippet

/-- The raw (family, action text) pairs collected by the suggested-actions block:
first one candidate per grouped family (the chosen finding action, falling back
to the first fact recommendation), then every recommendation of every anomalous
fact under that fact family. -/
def rawActions (facts : List DataprocFact) : List (String × String) :=
  let anomalies := facts.filter hasIssuesOf
  let fromGrouped :=
    (sortByRank (buildGrouped facts)).filterMap
      (fun fe =>
        let action0 : Option String :=
          match fe.2.finding.action with
          | some s => if s = "" then none else some s
          | none => none
        let action1 : Option String :=
          match action0 with
          | some s => some s
          | none =>
            match recommendationsOf fe.2.fact with
            | [] => none
            | r :: _ => some r
        match action1 with
        | some s => if s = "" then none else some (fe.1, s)
        | none => none)
  let fromFacts :=
    anomalies.flatMap (fun f => (recommendationsOf f).map (fun r => (familyOf f, r)))
  fromGrouped ++ fromFacts

/-- The deduplication key of one collected action. -/
def actionKey (p : String × String) : String := p.1 ++ "::" ++ p.2

/-- Deduplicate the collected actions by their family::action key, keeping first
occurrences in order (the seen-set loop of the source). -/
def dedupActionPairs : List (String × String) → List String → List (String × String)
  | [], _ => []
  | p :: rest, seen =>
    if actionKey p ∈ seen then dedupActionPairs rest seen
    else p :: dedupActionPairs rest (actionKey p :: seen)

/-- The rendered lines of the suggested-actions block body: one line per kept
action pair, or the single fallback line when nothing was collected. -/
def actionLines (facts : List DataprocFact) : List String :=
  let raw := rawActions facts
  if raw.isEmpty then
    ["- Monitor upcoming runs; no actionable regressions flagged."]
  else
    (dedupActionPairs raw []).map (fun p => "- " ++ p.1 ++ ": " ++ p.2)

/-- The duration text of one recent-highlights line: n/a unless the duration is
present and truthy (nonzero). -/
def highlight_duration (d : Option ℚ) : String :=
  match d with
  | none => "n/a"
  | some x => if x = 0 then "n/a" else fmt1 x ++ "s"

/-- The first rendered line of one recent-highlights entry. -/
def highlightLine (fact : DataprocFact) : String :=
  "- " ++ runIdentifierOf fact ++ " (" ++ fact.job_type ++ ") state=" ++
  fact.job_state ++ " duration=" ++ highlight_duration fact.duration_seconds

/-- The optional resource-usage companion line of one recent-highlights entry. -/
def highlightResourceLines (fact : DataprocFact) : List String :=
  let cs :=
    match fact.anomaly_flags with
    | none => ({ app_vcore_seconds := none, app_memory_gb_seconds := none, executor_peak := none } : CostSummary)
    | some p => p.cost_summary
  if cs.app_vcore_seconds.isSome || cs.app_memory_gb_seconds.isSome then
    ["  resource usage: vcore_seconds=" ++
      (match cs.app_vcore_seconds with
       | some v => fmt1 v
       | none => "None") ++
     " memory_gb_seconds=" ++
      (match cs.app_memory_gb_seconds with
       | some v => fmt1 v
       | none => "None")]
  else []

/-- Increment the counter bound to a state key, appending a fresh binding when
the key is new. -/
def bumpState (state : String) : List (String × ℕ) → List (String × ℕ)
  | [] => [(state, 1)]
  | (k, n) :: rest => if k = state then (k, n + 1) :: rest else (k, n) :: bumpState state rest

/-- Per-state run counts in first-occurrence order (a Python Counter preserves
first-insertion order). -/
def stateCounts (facts : List DataprocFact) : List (String × ℕ) :=
  facts.foldl (fun acc f => bumpState f.job_state acc) []

/-- reporting/report_builder.py build_status_report. -/
def build_status_report (facts : List DataprocFact) : String :=
  if facts.isEmpty then "No Dataproc activity detected within the configured window."
  else
    let anomalies := facts.filter hasIssuesOf
    let header :=
      ["Dataproc monitoring summary",
       "==========================",
       "Jobs ingested: " ++ toString facts.length ++ " (states: " ++
         String.intercalate ", "
           ((stateCounts facts).map (fun kv => kv.1 ++ "=" ++ toString kv.2)) ++ ")"]
    let grouped := buildGrouped facts
    let regressionBlock :=
      if anomalies.isEmpty then
        ["", "No runtime regressions detected against current baselines."]
      else
        ["", "⚠️  " ++ toString grouped.length ++ " regression(s) detected across logical jobs:"] ++
        (sortByRank grouped).map (fun fe => regressionLine fe.1 fe.2)
    let actionsBlock :=
      if anomalies.isEmpty then []
      else ["", "Suggested actions:"] ++ actionLines facts
    let highlights :=
      ["", "Recent job highlights:"] ++
      (facts.take 5).flatMap (fun f => highlightLine f :: highlightResourceLines f)
    String.intercalate "\n" (header ++ regressionBlock ++ actionsBlock ++ highlights)

/-- Claim wording: keep the qualifying metric with the strictly highest ratio,
an exact tie going to the earlier-evaluated metric. -/
def declStep (acc : Option (String × ℚ)) (q : String × ℚ) : Option (String × ℚ) :=
  match acc with
  | none => some q
  | some p => if p.2 < q.2 then some q else acc

/-- Claim wording: the qualifying metrics, vcore seconds then memory, each
tagged with its ratio; a metric qualifies when its baseline average is positive
and its current-over-average ratio exceeds 1.3. -/
def cost_decision_quals (b : BaselineStats) (cs : CostSummary) : List (String × ℚ) :=
  (match cs.app_vcore_seconds, b.avg_app_vcore_seconds with
   | some cur, some base =>
     if 0 < base ∧ 13 / 10 < cur / base then [("vcore_seconds", cur / base)] else []
   | _, _ => []) ++
  (match cs.app_memory_gb_seconds, b.avg_app_memory_gb_seconds with
   | some cur, some base =>
     if 0 < base ∧ 13 / 10 < cur / base then [("memory_gb_seconds", cur / base)] else []
   | _, _ => [])

/-- Claim wording for the cost-regression decision: a metric qualifies when its
baseline average is positive and the current-over-average ratio exceeds 1.3;
among qualifying metrics the one with the strictly highest ratio wins, an exact
tie going to the earlier-evaluated metric (vcore seconds before memory). -/
def cost_regression_decision (b : BaselineStats) (cs : CostSummary) : Option (String × ℚ) :=
  (cost_decision_quals b cs).foldl declStep none

/-- Claim wording for the report grouping: the keep-the-better step, preferring
a strictly lower severity rank and keeping the incumbent on ties. -/
def bestStep (acc : Option Anomaly) (f : Anomaly) : Option Anomaly :=
  match acc with
  | none => some f
  | some g => if severity_rank f.severity < severity_rank g.severity then some f else acc

/-- Fold the keep-the-better step over a finding list from a seed. -/
def bestOf (init : Option Anomaly) (l : List Anomaly) : Option Anomaly :=
  l.foldl bestStep init

/-- Claim wording: the first finding of lowest severity rank in traversal order. -/
def bestFinding (l : List Anomaly) : Option Anomaly :=
  bestOf none l

/-- Claim wording: all findings of the has-issues facts whose job family
(payload family, falling back to the fact job id) is the given one, in fact
order then finding order. -/
def familyFindings (facts : List DataprocFact) (fam : String) : List Anomaly :=
  (facts.filter hasIssuesOf).flatMap
    (fun f => if familyOf f = fam then findingsOf f else [])

/-- An all-empty run record fixture. -/
def emptyRun : SparkRunState :=
  { run_date := none
    application_start_time := TsField.missing
    application_end_time := TsField.missing
    status := none
    dataproc_jobid := none
    dataproc_cluster_uuid := none
    spark_taskid := none
    spark_jobid := none
    cluster_config_details := []
    log_location := none
    application_id := none
    spark_event_metrics := none }

/-- An all-empty fact fixture. -/
def emptyFact : DataprocFact :=
  { ingest_date := ""
    ingest_timestamp := ""
    project_id := ""
    region := ""
    cluster_name := ""
    job_id := ""
    job_type := ""
    job_state := ""
    job_start_time := none
    job_end_time := none
    duration_seconds := none
    yarn_application_ids := []
    cluster_metrics := []
    job_metrics := none
    driver_log_excerpt := none
    yarn_log_excerpt := none
    spark_event_snippet := none
    anomaly_flags := none }

/-- An all-empty baseline fixture. -/
def emptyBaseline : BaselineStats :=
  { job_id := ""
    job_type := ""
    cluster_name := ""
    p50_duration := none
    p95_duration := none
    avg_duration := none
    p50_app_vcore_seconds := none
    p95_app_vcore_seconds := none
    avg_app_vcore_seconds := none
    p50_app_memory_gb_seconds := none
    p95_app_memory_gb_seconds := none
    avg_app_memory_gb_seconds := none
    avg_max_over_median_ratio := none
    p95_task_duration_ms := none
    run_count := 0 }

/-- Claim C9: the derived duration_seconds is none when either timestamp is
missing or unparseable, and otherwise is the non-negative end-minus-start
difference with naive timestamps read as UTC and negative values clamped to 0. -/
theorem run_duration_seconds_spec (r : SparkRunState) :
    (r.application_start_time = TsField.missing → r.duration_seconds = none)
  ∧ (r.application_end_time = TsField.missing → r.duration_seconds = none)
  ∧ (∀ s, r.application_start_time = TsField.unparseable s → r.duration_seconds = none)
  ∧ (∀ s, r.application_end_time = TsField.unparseable s → r.duration_seconds = none)
  ∧ (∀ rs ws tzs rr we tze,
      r.application_start_time = TsField.parsed rs ws tzs →
      r.application_end_time = TsField.parsed rr we tze →
      r.duration_seconds = some (max ((we - tze.getD 0) - (ws - tzs.getD 0)) 0)
      ∧ ∀ d, r.duration_seconds = some d → 0 ≤ d) := by
  refine ⟨?_, ?_, ?_, ?_, ?_⟩
  · intro h
    cases he : r.application_end_time <;>
      simp [SparkRunState.duration_seconds, h, he]
  · intro h
    cases hs : r.application_start_time <;>
      simp [SparkRunState.duration_seconds, h, hs]
  · intro s h
    cases he : r.application_end_time <;>
      simp [SparkRunState.duration_seconds, h, he]
  · intro s h
    cases hs : r.application_start_time <;>
      simp [SparkRunState.duration_seconds, h, hs]
  · intro rs ws tzs rr we tze hs he
    constructor
    · simp [SparkRunState.duration_seconds, hs, he]
    · intro d hd
      rw [show r.duration_seconds = some (max ((we - tze.getD 0) - (ws - tzs.getD 0)) 0) by
            simp [SparkRunState.duration_seconds, hs, he]] at hd
      cases hd
      exact le_max_right _ _

/-- A run with parsed start and end timestamps for the C9 witness. -/
def cRun9 : SparkRunState :=
  { emptyRun with
      application_start_time := TsField.parsed "2024-01-01T00:01:40" 100 none
      application_end_time := TsField.parsed "2024-01-01T00:04:10" 250 none }

/-- Witness for C9 at a concrete run with naive timestamps 100s and 250s. -/
theorem run_duration_seconds_spec_witness :
    cRun9.duration_seconds = some (max (((250 : ℚ) - (none : Option ℚ).getD 0) - ((100 : ℚ) - (none : Option ℚ).getD 0)) 0)
    ∧ ∀ d, cRun9.duration_seconds = some d → 0 ≤ d :=
  (run_duration_seconds_spec cRun9).2.2.2.2 "2024-01-01T00:01:40" 100 none
    "2024-01-01T00:04:10" 250 none rfl rfl

/-- Claim C10: a fact whose duration_seconds is exactly zero renders duration
n/a in the recent-highlights block, identically to a fact with no duration. -/
theorem highlight_zero_duration_renders_na (fact : DataprocFact)
    (h : fact.duration_seconds = some 0) :
    highlight_duration fact.duration_seconds = "n/a"
    ∧ highlightLine fact = highlightLine { fact with duration_seconds := none } := by
  constructor
  · rw [h]; simp [highlight_duration]
  · simp [highlightLine, runIdentifierOf, h, highlight_duration]

/-- A fact with a zero duration for the C10 witness. -/
def cFact10 : DataprocFact :=
  { emptyFact with job_id := "job-a", job_type := "SPARK", job_state := "DONE",
                   duration_seconds := some 0 }

/-- Witness for C10 at a concrete zero-duration fact. -/
theorem highlight_zero_duration_renders_na_witness :
    highlight_duration cFact10.duration_seconds = "n/a"
    ∧ highlightLine cFact10 = highlightLine { cFact10 with duration_seconds := none } :=
  highlight_zero_duration_renders_na cFact10 rfl

/-- Claim C2: the runtime-regression detector declines when the duration is
missing or not strictly positive, when the baseline or its p50 duration is
missing, or when the ratio is below 1.5; otherwise it fires with severity
critical at ratio at least 2 and warning on [1.5, 2). -/
theorem runtime_regression_detector_spec (fact : DataprocFact) (baseline : Option BaselineStats) :
    (fact.duration_seconds = none → detect_job_runtime_anomaly fact baseline = none)
  ∧ (∀ d, fact.duration_seconds = some d → d ≤ 0 → detect_job_runtime_anomaly fact baseline = none)
  ∧ (baseline = none → detect_job_runtime_anomaly fact baseline = none)
  ∧ (∀ b, baseline = some b → b.p50_duration = none → detect_job_runtime_anomaly fact baseline = none)
  ∧ (∀ d b p50, fact.duration_seconds = some d → baseline = some b → b.p50_duration = some p50 →
      d / p50 < 3 / 2 → detect_job_runtime_anomaly fact baseline = none)
  ∧ (∀ d b p50, fact.duration_seconds = some d → 0 < d → baseline = some b →
      b.p50_duration = some p50 → 3 / 2 ≤ d / p50 →
      ∃ a, detect_job_runtime_anomaly fact baseline = some a
        ∧ a.kind = "job_runtime_regression"
        ∧ a.severity = (if d / p50 ≥ 2 then "critical" else "warning")) := by
  refine ⟨?_, ?_, ?_, ?_, ?_, ?_⟩
  · intro h; simp [detect_job_runtime_anomaly, h]
  · intro d hd hle
    simp only [detect_job_runtime_anomaly, hd]
    rw [if_pos (Or.inr hle)]
  · intro h
    simp only [detect_job_runtime_anomaly, h]
    cases hd : fact.duration_seconds <;> simp
  · intro b hb hp
    simp only [detect_job_runtime_anomaly, hb, hp]
    cases hd : fact.duration_seconds <;> simp
  · intro d b p50 hd hb hp hr
    simp only [detect_job_runtime_anomaly, hd, hb, hp]
    split_ifs with h1 h2 <;> rfl
  · intro d b p50 hd hdpos hb hp hr
    have hp50 : 0 < p50 := by
      by_contra hng
      push_neg at hng
      rcases eq_or_lt_of_le hng with h0 | hneg
      · rw [h0] at hr; simp at hr; linarith
      · have : d / p50 < 0 := div_neg_of_pos_of_neg hdpos hneg
        linarith
    simp only [detect_job_runtime_anomaly, hd, hb, hp]
    rw [if_neg, if_neg, if_neg]
    · exact ⟨_, rfl, rfl, rfl⟩
    · exact not_lt.mpr hr
    · exact ne_of_gt hp50
    · push_neg
      exact ⟨ne_of_gt hdpos, hdpos⟩

/-- A fact with a 2x runtime for the C2 witness. -/
def cFact2 : DataprocFact := { emptyFact with job_id := "job-b", duration_seconds := some 200 }

/-- A baseline with p50 duration 100 for the C2 witness. -/
def cBaseline2 : BaselineStats := { emptyBaseline with p50_duration := some 100, run_count := 8 }

/-- Witness for C2: at duration 200 over p50 100 the detector fires critical. -/
theorem runtime_regression_detector_spec_witness :
    ∃ a, detect_job_runtime_anomaly cFact2 (some cBaseline2) = some a
      ∧ a.kind = "job_runtime_regression"
      ∧ a.severity = (if (200 : ℚ) / 100 ≥ 2 then "critical" else "warning") :=
  (runtime_regression_detector_spec cFact2 (some cBaseline2)).2.2.2.2.2 200 cBaseline2 100
    rfl (by norm_num) rfl rfl (by norm_num)

/-- Claim C4: with a positive worker count and a numeric executor peak, the
right-sizing detector emits the info underutilized finding exactly below
utilization 0.45, the warning near-limit finding exactly from 0.95 up, and
nothing on [0.45, 0.95). -/
theorem cluster_rightsizing_detector_spec (fact : DataprocFact) (cp : ClusterProfile)
    (cs : CostSummary) (tw peak : ℚ) (htw : cp.total_workers = some tw) (hpos : 0 < tw)
    (hpeak : cs.executor_peak = some peak) :
    ((∃ a, detect_cluster_rightsizing fact (some cp) (some cs) = some a
        ∧ a.kind = "cluster_underutilized" ∧ a.severity = "info") ↔ peak / tw < 9 / 20)
  ∧ ((∃ a, detect_cluster_rightsizing fact (some cp) (some cs) = some a
        ∧ a.kind = "cluster_capacity_near_limit" ∧ a.severity = "warning") ↔ peak / tw ≥ 19 / 20)
  ∧ (detect_cluster_rightsizing fact (some cp) (some cs) = none ↔
      9 / 20 ≤ peak / tw ∧ peak / tw < 19 / 20) := by
  have hguard : ¬(tw = 0 ∨ tw ≤ 0) := by
    push_neg
    exact ⟨ne_of_gt hpos, hpos⟩
  simp only [detect_cluster_rightsizing, htw, hpeak]
  rw [if_neg hguard]
  split_ifs with h1 h2
  · refine ⟨⟨fun _ => h1, fun _ => ⟨_, rfl, rfl, rfl⟩⟩, ?_, ?_⟩
    · constructor
      · rintro ⟨a, ha, hk, -⟩
        cases Option.some.inj ha
        simp at hk
      · intro hge; linarith
    · constructor
      · intro hnone; cases hnone
      · rintro ⟨hge, -⟩; linarith
  · refine ⟨?_, ⟨fun _ => h2, fun _ => ⟨_, rfl, rfl, rfl⟩⟩, ?_⟩
    · constructor
      · rintro ⟨a, ha, hk, -⟩
        cases Option.some.inj ha
        simp at hk
      · intro hlt; exact absurd hlt h1
    · constructor
      · intro hnone; cases hnone
      · rintro ⟨-, hlt⟩
        exact absurd h2 (not_le.mpr hlt)
  · refine ⟨?_, ?_, ?_⟩
    · constructor
      · rintro ⟨a, ha, -, -⟩; cases ha
      · intro hlt; exact absurd hlt h1
    · constructor
      · rintro ⟨a, ha, -, -⟩; cases ha
      · intro hge; exact absurd hge h2
    · exact ⟨fun _ => ⟨not_lt.mp h1, not_le.mp h2⟩, fun _ => rfl⟩

/-- A 10-worker cluster profile for the C4 witness. -/
def cCp4 : ClusterProfile := { total_workers := some 10, autoscaling_enabled := false }

/-- A cost summary with executor peak 4 for the C4 witness. -/
def cCs4 : CostSummary :=
  { app_vcore_seconds := none, app_memory_gb_seconds := none, executor_peak := some 4 }

/-- Witness for C4: peak 4 over 10 workers is utilization 0.4, an info finding. -/
theorem cluster_rightsizing_detector_spec_witness :
    ∃ a, detect_cluster_rightsizing emptyFact (some cCp4) (some cCs4) = some a
      ∧ a.kind = "cluster_underutilized" ∧ a.severity = "info" :=
  ((cluster_rightsizing_detector_spec emptyFact cCp4 cCs4 10 4 rfl (by norm_num) rfl).1).mpr
    (by norm_num)

/-- Claim C8: the synthesized payload has has_issues exactly when some finding
carries severity warning or critical. -/
theorem synthesize_has_issues_iff (fact : DataprocFact) (baseline : Option BaselineStats)
    (spark_metrics : Option SparkEventMetrics) (cost_summary : Option CostSummary)
    (cluster_profile : Option ClusterProfile) (job_family run_identifier : Option String) :
    (synthesize_anomaly_flags fact baseline spark_metrics cost_summary cluster_profile
        job_family run_identifier).has_issues = true
      ↔ ∃ f ∈ (synthesize_anomaly_flags fact baseline spark_metrics cost_summary cluster_profile
          job_family run_identifier).findings,
          f.severity = "warning" ∨ f.severity = "critical" := by
  simp only [synthesize_anomaly_flags, List.any_eq_true, Bool.or_eq_true, decide_eq_true_eq]

/-- A cost summary with executor peak 2 for the C8 witness. -/
def cCs8 : CostSummary :=
  { app_vcore_seconds := none, app_memory_gb_seconds := none, executor_peak := some 2 }

/-- A 10-worker cluster profile for the C8 witness. -/
def cCp8 : ClusterProfile := { total_workers := some 10, autoscaling_enabled := false }

/-- Witness for C8: a payload whose only finding is the info-severity
underutilized hint carries no warning or critical finding, matching its false
has_issues flag. -/
theorem synthesize_has_issues_iff_witness :
    ¬ ∃ f ∈ (synthesize_anomaly_flags emptyFact none none (some cCs8) (some cCp8)
        none none).findings, f.severity = "warning" ∨ f.severity = "critical" :=
  fun hex =>
    absurd
      ((synthesize_has_issues_iff emptyFact none none (some cCs8) (some cCp8) none none).mpr hex)
      (by with_unfolding_all decide)

/-- Claim C5 (refuting evidence): the fact-assembly loop threads failure through
the whole fold, so one failing run aborts the cycle and the fact of the other,
individually successful run is never produced. -/
theorem assembleFacts_aborts_on_first_failure :
    assembleFacts
        (fun n : ℕ => if n = 0 then (Except.error "boom" : Except String (ℕ × Bool))
                      else Except.ok (n, false)) [0, 1]
      = Except.error "boom"
    ∧ (fun n : ℕ => if n = 0 then (Except.error "boom" : Except String (ℕ × Bool))
                    else Except.ok (n, false)) 1 = Except.ok (1, false) := by
  constructor <;> rfl

/-- A run whose primary job id carries a 6-hex-character suffix, for C1. -/
def cRun1 : SparkRunState :=
  { emptyRun with
      spark_jobid := some "etl_abc123"
      application_start_time := TsField.parsed "2024-01-01T00:00:00" 0 none
      application_end_time := TsField.parsed "2024-01-01T00:06:40" 400 none }

/-- The baseline stored by the aggregator under the stripped logical id, for C1. -/
def cBaseline1 : BaselineStats :=
  { emptyBaseline with job_id := "etl", p50_duration := some 100, run_count := 5 }

/-- A baseline map keyed, as the aggregator keys it, by the logical job id. -/
def cBaselines1 : List (String × BaselineStats) := [("etl", cBaseline1)]

/-- A minimal monitoring config fixture. -/
def cConfig1 : MonitoringConfigM := { project_id := "proj", region := "region" }

/-- Claim C1 (refuting evidence): the aggregator stores the baseline of the
history rows of job etl_abc123 under the stripped key etl, but _build_fact
resolves the baseline with the raw primary job id, finds nothing, and the
assembled fact carries no finding, although the logical-id resolution the claim
describes would find the stored baseline and a 4x runtime regression. -/
theorem fact_assembler_uses_raw_job_id_not_logical :
    logical_job_id cRun1.primary_job_id = "etl"
    ∧ baselineMapKeys ["etl_abc123"] = ["etl"]
    ∧ lookupBaseline cBaselines1 (logical_job_id cRun1.primary_job_id) = some cBaseline1
    ∧ lookupBaseline cBaselines1 cRun1.primary_job_id = none
    ∧ (findingsOf (buildFact cConfig1 "2024-01-01" "2024-01-01T01:00:00" cRun1 cBaselines1).1).isEmpty = true
    ∧ (detect_job_runtime_anomaly
         (buildFact cConfig1 "2024-01-01" "2024-01-01T01:00:00" cRun1 cBaselines1).1
         (lookupBaseline cBaselines1 (logical_job_id cRun1.primary_job_id))).isSome = true := by
  refine ⟨by decide, by decide, rfl, rfl, ?_, ?_⟩ <;> with_unfolding_all rfl
/-- Project the selection accumulator to its (metric, ratio) content. -/
def costProj (acc : Option (String × ℚ × ℚ) × ℚ) : Option (String × ℚ) :=
  acc.1.map (fun e => (e.1, e.2.1 / e.2.2))

/-- Invariant of the selection loop: an empty accumulator carries ratio 0, a
filled one carries the ratio of its entry, above 1.3, over a positive base. -/
def CostInv (acc : Option (String × ℚ × ℚ) × ℚ) : Prop :=
  (acc.1 = none → acc.2 = 0) ∧
  ∀ e, acc.1 = some e → acc.2 = e.2.1 / e.2.2 ∧ 13 / 10 < acc.2 ∧ 0 < e.2.2

/-- The qualifying (metric, ratio) pairs of a candidate list, per the claim. -/
def costQuals (l : List (String × ℚ × ℚ)) : List (String × ℚ) :=
  l.filterMap
    (fun e => if 0 < e.2.2 ∧ 13 / 10 < e.2.1 / e.2.2 then some (e.1, e.2.1 / e.2.2) else none)

/-- The selection loop projects to the claim-side keep-the-highest fold over
the qualifying pairs. -/
theorem costFold_spec (l : List (String × ℚ × ℚ)) :
    ∀ acc, CostInv acc →
      costProj (l.foldl costStep acc) = (costQuals l).foldl declStep (costProj acc)
      ∧ CostInv (l.foldl costStep acc) := by
  induction l with
  | nil => intro acc h; exact ⟨rfl, h⟩
  | cons e rest ih =>
    intro acc hinv
    obtain ⟨a1, a2⟩ := acc
    by_cases hb : e.2.2 ≤ 0
    · have h1 : costStep (a1, a2) e = (a1, a2) := by simp [costStep, hb]
      have h2 : costQuals (e :: rest) = costQuals rest := by
        have hng : ¬(0 < e.2.2 ∧ 13 / 10 < e.2.1 / e.2.2) :=
          fun hc => absurd hc.1 (not_lt.mpr hb)
        simp [costQuals, List.filterMap_cons, hng]
      rw [List.foldl_cons, h1, h2]
      exact ih (a1, a2) hinv
    · push_neg at hb
      by_cases hr : e.2.1 / e.2.2 ≤ 13 / 10
      · have h1 : costStep (a1, a2) e = (a1, a2) := by
          simp [costStep, not_le.mpr hb, hr]
        have h2 : costQuals (e :: rest) = costQuals rest := by
          have hng : ¬(0 < e.2.2 ∧ 13 / 10 < e.2.1 / e.2.2) :=
            fun hc => absurd hc.2 (not_lt.mpr hr)
          simp [costQuals, List.filterMap_cons, hng]
        rw [List.foldl_cons, h1, h2]
        exact ih (a1, a2) hinv
      · push_neg at hr
        have h2 : costQuals (e :: rest) = (e.1, e.2.1 / e.2.2) :: costQuals rest := by
          simp [costQuals, List.filterMap_cons, if_pos (And.intro hb hr)]
        rw [List.foldl_cons, h2, List.foldl_cons]
        cases a1 with
        | none =>
          have hz : a2 = 0 := hinv.1 rfl
          have htake : costStep (none, a2) e = (some e, e.2.1 / e.2.2) := by
            have hlt : a2 < e.2.1 / e.2.2 := by
              rw [hz]; exact lt_trans (by norm_num) hr
            simp [costStep, not_le.mpr hb, not_le.mpr hr, hlt]
          have hdecl : declStep (costProj (none, a2)) (e.1, e.2.1 / e.2.2) =
              costProj (some e, e.2.1 / e.2.2) := rfl
          rw [htake, hdecl]
          exact ih (some e, e.2.1 / e.2.2)
            ⟨fun h => Option.noConfusion h,
             fun e2 he2 => by cases Option.some.inj he2; exact ⟨rfl, hr, hb⟩⟩
        | some p =>
          obtain ⟨hpr, hplow, hpbase⟩ := hinv.2 p rfl
          have hproj : costProj (some p, a2) = some (p.1, p.2.1 / p.2.2) := rfl
          by_cases hcmp : a2 < e.2.1 / e.2.2
          · have htake : costStep (some p, a2) e = (some e, e.2.1 / e.2.2) := by
              simp [costStep, not_le.mpr hb, not_le.mpr hr, hcmp]
            have hdecl : declStep (costProj (some p, a2)) (e.1, e.2.1 / e.2.2) =
                costProj (some e, e.2.1 / e.2.2) := by
              rw [hproj]
              show (if p.2.1 / p.2.2 < e.2.1 / e.2.2 then some (e.1, e.2.1 / e.2.2)
                    else some (p.1, p.2.1 / p.2.2)) = some (e.1, e.2.1 / e.2.2)
              exact if_pos (hpr ▸ hcmp)
            rw [htake, hdecl]
            exact ih (some e, e.2.1 / e.2.2)
              ⟨fun h => Option.noConfusion h,
             fun e2 he2 => by cases Option.some.inj he2; exact ⟨rfl, hr, hb⟩⟩
          · have hkeep : costStep (some p, a2) e = (some p, a2) := by
              simp [costStep, not_le.mpr hb, not_le.mpr hr, hcmp]
            have hdecl : declStep (costProj (some p, a2)) (e.1, e.2.1 / e.2.2) =
                costProj (some p, a2) := by
              rw [hproj]
              show (if p.2.1 / p.2.2 < e.2.1 / e.2.2 then some (e.1, e.2.1 / e.2.2)
                    else some (p.1, p.2.1 / p.2.2)) = some (p.1, p.2.1 / p.2.2)
              exact if_neg (hpr ▸ hcmp)
            rw [hkeep, hdecl]
            exact ih (some p, a2) hinv

/-- The qualifying pairs of one collected metric candidate. -/
theorem costQualsSingle (nm : String) (cur base : ℚ) :
    costQuals (if base = 0 then [] else [(nm, cur, base)]) =
      (if 0 < base ∧ 13 / 10 < cur / base then [(nm, cur / base)] else []) := by
  by_cases hb : base = 0
  · rw [if_pos hb]
    have hng : ¬(0 < base ∧ 13 / 10 < cur / base) := fun hc => by
      rw [hb] at hc; exact absurd hc.1 (lt_irrefl 0)
    rw [if_neg hng]
    rfl
  · rw [if_neg hb]
    by_cases hc : 0 < base ∧ 13 / 10 < cur / base
    · rw [if_pos hc]
      simp [costQuals, List.filterMap_cons, hc]
    · rw [if_neg hc]
      simp [costQuals, List.filterMap_cons, hc]

/-- Qualification distributes over candidate concatenation. -/
theorem costQuals_append (l1 l2 : List (String × ℚ × ℚ)) :
    costQuals (l1 ++ l2) = costQuals l1 ++ costQuals l2 := by
  simp [costQuals, List.filterMap_append]

/-- The claim-side decision equals the keep-the-highest fold over the
qualifying pairs of the collected candidates. -/
theorem cost_decision_eq (b : BaselineStats) (cs : CostSummary) :
    cost_regression_decision b cs = (costQuals (costEntries b cs)).foldl declStep none := by
  have hlists : cost_decision_quals b cs = costQuals (costEntries b cs) := by
    rw [costEntries, cost_decision_quals, costQuals_append]
    rcases hv : cs.app_vcore_seconds with _ | cv <;>
    rcases hbv : b.avg_app_vcore_seconds with _ | bv <;>
    rcases hm : cs.app_memory_gb_seconds with _ | cm <;>
    rcases hbm : b.avg_app_memory_gb_seconds with _ | bm <;>
    simp only [costQualsSingle] <;> rfl
  rw [cost_regression_decision, hlists]

/-- Claim C3: the cost-regression detector declines exactly when no metric
qualifies (positive baseline average and ratio above 1.3); otherwise it reports
the single qualifying metric of strictly highest ratio (an exact tie going to
vcore seconds, evaluated first) with severity warning below ratio 1.75 and
critical from 1.75 up. -/
theorem cost_regression_detector_spec (fact : DataprocFact) (b : BaselineStats) (cs : CostSummary) :
    (cost_regression_decision b cs = none →
      detect_cost_regression fact (some b) (some cs) = none)
  ∧ (∀ nm ratio, cost_regression_decision b cs = some (nm, ratio) →
      ∃ a, detect_cost_regression fact (some b) (some cs) = some a
        ∧ a.kind = "cost_regression"
        ∧ a.severity = (if ratio < 7 / 4 then "warning" else "critical")
        ∧ evLookup a.evidence "metric" = some (JVal.str nm)
        ∧ evLookup a.evidence "ratio" = some (JVal.num ratio)) := by
  have hfold := costFold_spec (costEntries b cs) (none, 0)
    ⟨fun _ => rfl, fun e he => Option.noConfusion he⟩
  have hdec : cost_regression_decision b cs = costProj (costSelect (costEntries b cs)) := by
    rw [cost_decision_eq]
    exact hfold.1.symm
  have hinv : CostInv (costSelect (costEntries b cs)) := hfold.2
  rcases hsel : costSelect (costEntries b cs) with ⟨s1, s2⟩
  rw [hsel] at hdec hinv
  constructor
  · intro hnone
    rw [hdec] at hnone
    cases s1 with
    | none => simp [detect_cost_regression, hsel]
    | some e => exact absurd hnone (by simp [costProj])
  · intro nm ratio hsome
    rw [hdec] at hsome
    cases s1 with
    | none => exact absurd hsome (by simp [costProj])
    | some e =>
      have he : (e.1, e.2.1 / e.2.2) = (nm, ratio) := by
        simpa [costProj] using hsome
      obtain ⟨hsr, hslow, hsbase⟩ := hinv.2 e rfl
      have he1 : e.1 = nm := ((Prod.mk.injEq _ _ _ _).mp he).1
      have hs2 : s2 = ratio := by
        have hsr2 : s2 = e.2.1 / e.2.2 := hsr
        rw [hsr2, ((Prod.mk.injEq _ _ _ _).mp he).2]
      simp only [detect_cost_regression, hsel]
      refine ⟨_, rfl, rfl, ?_, ?_, ?_⟩
      · show (if s2 < 7 / 4 then "warning" else "critical") = _
        rw [hs2]
      · show evLookup _ "metric" = _
        simp [evLookup, he1]
      · show evLookup _ "ratio" = _
        simp [evLookup, hs2]

/-- A baseline with vcore and memory averages of 10 for the C3 witness. -/
def cBaseline3 : BaselineStats :=
  { emptyBaseline with avg_app_vcore_seconds := some 10, avg_app_memory_gb_seconds := some 10 }

/-- A cost summary with vcore 14 (ratio 1.4) and memory 18 (ratio 1.8). -/
def cCs3 : CostSummary :=
  { app_vcore_seconds := some 14, app_memory_gb_seconds := some 18, executor_peak := none }

/-- Witness for C3: with vcore ratio 1.4 and memory ratio 1.8 both qualifying,
memory wins and the severity is critical. -/
theorem cost_regression_detector_spec_witness :
    ∃ a, detect_cost_regression emptyFact (some cBaseline3) (some cCs3) = some a
      ∧ a.kind = "cost_regression"
      ∧ a.severity = (if (18 : ℚ) / 10 < 7 / 4 then "warning" else "critical")
      ∧ evLookup a.evidence "metric" = some (JVal.str "memory_gb_seconds")
      ∧ evLookup a.evidence "ratio" = some (JVal.num ((18 : ℚ) / 10)) :=
  (cost_regression_detector_spec emptyFact cBaseline3 cCs3).2 "memory_gb_seconds" ((18 : ℚ) / 10)
    (by with_unfolding_all decide)
/-- Project a grouped entry lookup to the finding it holds. -/
def projGE (o : Option GroupEntry) : Option Anomaly := o.map (fun e => e.finding)

/-- Invariant of the grouped dict: every stored rank is the severity rank of the stored finding. -/
def WFG (g : List (String × GroupEntry)) : Prop :=
  ∀ fam e, lookupGE g fam = some e → e.rank = severity_rank e.finding.severity

/-- Lookup after update-or-append. -/
theorem lookupGE_setGE (g : List (String × GroupEntry)) (fam : String) (e : GroupEntry)
    (fam2 : String) :
    lookupGE (setGE g fam e) fam2 = if fam = fam2 then some e else lookupGE g fam2 := by
  induction g with
  | nil => simp [setGE, lookupGE]
  | cons kv rest ih =>
    obtain ⟨k, v⟩ := kv
    by_cases hk : k = fam
    · subst hk
      by_cases h2 : k = fam2
      · subst h2; simp [setGE, lookupGE]
      · simp [setGE, lookupGE, h2]
    · by_cases h2 : k = fam2
      · subst h2
        have hnk : ¬ fam = k := fun h => hk h.symm
        simp [setGE, lookupGE, hk, hnk]
      · simp [setGE, lookupGE, hk, h2, ih]

/-- Update-or-append preserves the rank invariant. -/
theorem WFG_setGE (g : List (String × GroupEntry)) (fam : String) (e : GroupEntry)
    (hwf : WFG g) (he : e.rank = severity_rank e.finding.severity) :
    WFG (setGE g fam e) := by
  intro fam2 e2 h2
  rw [lookupGE_setGE] at h2
  by_cases hf : fam = fam2
  · rw [if_pos hf] at h2; cases Option.some.inj h2; exact he
  · rw [if_neg hf] at h2; exact hwf fam2 e2 h2

/-- One grouping step projects to the claim-side keep-the-better step on its family and leaves other families untouched. -/
theorem groupFinding_lookup (g : List (String × GroupEntry)) (fam0 : String)
    (fact : DataprocFact) (f : Anomaly) (hwf : WFG g) :
    (∀ fam, projGE (lookupGE (groupFinding fam0 fact g f) fam)
      = if fam = fam0 then bestStep (projGE (lookupGE g fam0)) f
        else projGE (lookupGE g fam))
    ∧ WFG (groupFinding fam0 fact g f) := by
  cases hcur : lookupGE g fam0 with
  | none =>
    have hstep : groupFinding fam0 fact g f =
        setGE g fam0
          { rank := severity_rank f.severity, severity := f.severity, finding := f, fact := fact } := by
      simp [groupFinding, hcur]
    rw [hstep]
    constructor
    · intro fam
      rw [lookupGE_setGE]
      by_cases hf : fam = fam0
      · rw [if_pos hf.symm, if_pos hf]
        rfl
      · rw [if_neg (fun h => hf h.symm), if_neg hf]
    · exact WFG_setGE g fam0 _ hwf rfl
  | some cur =>
    have hcrank : cur.rank = severity_rank cur.finding.severity := hwf fam0 cur hcur
    by_cases hlt : severity_rank f.severity < cur.rank
    · have hstep : groupFinding fam0 fact g f =
          setGE g fam0
            { rank := severity_rank f.severity, severity := f.severity, finding := f, fact := fact } := by
        simp [groupFinding, hcur, hlt]
      rw [hstep]
      constructor
      · intro fam
        rw [lookupGE_setGE]
        by_cases hf : fam = fam0
        · rw [if_pos hf.symm, if_pos hf]
          show some f =
            (if severity_rank f.severity < severity_rank cur.finding.severity then some f
             else some cur.finding)
          rw [if_pos (hcrank ▸ hlt)]
        · rw [if_neg (fun h => hf h.symm), if_neg hf]
      · exact WFG_setGE g fam0 _ hwf rfl
    · have hstep : groupFinding fam0 fact g f = g := by
        simp [groupFinding, hcur, hlt]
      rw [hstep]
      constructor
      · intro fam
        by_cases hf : fam = fam0
        · subst hf
          simp only [eq_self_iff_true, if_true]
          rw [hcur]
          show some cur.finding =
            (if severity_rank f.severity < severity_rank cur.finding.severity then some f
             else some cur.finding)
          rw [if_neg (hcrank ▸ hlt)]
        · rw [if_neg hf]
      · exact hwf

/-- The keep-the-better fold splits over concatenation. -/
theorem bestOf_append (init : Option Anomaly) (l1 l2 : List Anomaly) :
    bestOf init (l1 ++ l2) = bestOf (bestOf init l1) l2 := by
  simp [bestOf, List.foldl_append]

/-- The per-fact finding loop projects to the claim-side fold on its family. -/
theorem groupFindings_fold (fs : List Anomaly) (fam0 : String) (fact : DataprocFact) :
    ∀ g, WFG g →
      (∀ fam, projGE (lookupGE (fs.foldl (groupFinding fam0 fact) g) fam)
        = if fam = fam0 then bestOf (projGE (lookupGE g fam0)) fs
          else projGE (lookupGE g fam))
      ∧ WFG (fs.foldl (groupFinding fam0 fact) g) := by
  induction fs with
  | nil =>
    intro g hwf
    refine ⟨?_, hwf⟩
    intro fam
    by_cases hf : fam = fam0
    · rw [if_pos hf, hf]; rfl
    · rw [if_neg hf]; rfl
  | cons f rest ih =>
    intro g hwf
    have hstep := groupFinding_lookup g fam0 fact f hwf
    have hrec := ih (groupFinding fam0 fact g f) hstep.2
    constructor
    · intro fam
      rw [List.foldl_cons, hrec.1 fam]
      by_cases hf : fam = fam0
      · rw [if_pos hf, if_pos hf]
        have hone := hstep.1 fam0
        rw [if_pos rfl] at hone
        rw [hone]
        rfl
      · rw [if_neg hf, if_neg hf]
        have hone := hstep.1 fam
        rw [if_neg hf] at hone
        exact hone
    · exact hrec.2

/-- The skip of no-finding facts is absorbed by the empty fold. -/
theorem groupFact_eq (g : List (String × GroupEntry)) (fact : DataprocFact) :
    groupFact g fact = (findingsOf fact).foldl (groupFinding (familyOf fact) fact) g := by
  cases hfs : findingsOf fact with
  | nil => simp [groupFact, hfs]
  | cons a l => simp [groupFact, hfs]

/-- The grouping loop over a fact list projects, per family, to the claim-side fold over that family findings stream. -/
theorem buildGrouped_fold (l : List DataprocFact) :
    ∀ g, WFG g →
      (∀ fam, projGE (lookupGE (l.foldl groupFact g) fam)
        = bestOf (projGE (lookupGE g fam))
            (l.flatMap (fun f => if familyOf f = fam then findingsOf f else [])))
      ∧ WFG (l.foldl groupFact g) := by
  induction l with
  | nil => intro g hwf; exact ⟨fun fam => rfl, hwf⟩
  | cons fact rest ih =>
    intro g hwf
    have hinner := groupFindings_fold (findingsOf fact) (familyOf fact) fact g hwf
    have hwf2 : WFG (groupFact g fact) := by
      rw [groupFact_eq]; exact hinner.2
    have hrec := ih (groupFact g fact) hwf2
    constructor
    · intro fam
      rw [List.foldl_cons, hrec.1 fam, List.flatMap_cons, bestOf_append]
      congr 1
      rw [groupFact_eq]
      have hone := hinner.1 fam
      by_cases hf : familyOf fact = fam
      · rw [if_pos hf]
        rw [if_pos hf.symm] at hone
        rw [hone, hf]
      · rw [if_neg hf]
        rw [if_neg (fun h => hf h.symm)] at hone
        exact hone
    · exact hrec.2

/-- Claim C6: per job family (payload family, falling back to the fact job id),
the grouped dict of the report builder keeps exactly the first finding of
numerically lowest severity rank under critical 0, warning 1, info 2,
unranked 3, over all findings of the has-issues facts of that family. -/
theorem report_grouping_keeps_best_finding (facts : List DataprocFact) (fam : String) :
    projGE (lookupGE (buildGrouped facts) fam) = bestFinding (familyFindings facts fam) := by
  have h := buildGrouped_fold (facts.filter hasIssuesOf) []
    (fun fam2 e he => Option.noConfusion he)
  rw [buildGrouped]
  exact h.1 fam

/-- A warning finding fixture for the C6 witness. -/
def cAnom6w : Anomaly :=
  { kind := "job_runtime_regression", severity := "warning", message := "w",
    evidence := [], action := some "act-w" }

/-- A critical finding fixture for the C6 witness. -/
def cAnom6c : Anomaly :=
  { kind := "cost_regression", severity := "critical", message := "c",
    evidence := [], action := some "act-c" }

/-- A has-issues fact of family fam6 carrying the warning finding. -/
def cFact6w : DataprocFact :=
  { emptyFact with
      job_id := "job-w"
      anomaly_flags := some
        { findings := [cAnom6w]
          cost_summary := { app_vcore_seconds := none, app_memory_gb_seconds := none, executor_peak := none }
          baseline_reference := none
          job_family := some "fam6"
          run_identifier := some "run-w"
          recommendations := ["act-w"]
          has_issues := true } }

/-- A has-issues fact of family fam6 carrying the critical finding. -/
def cFact6c : DataprocFact :=
  { emptyFact with
      job_id := "job-c"
      anomaly_flags := some
        { findings := [cAnom6c]
          cost_summary := { app_vcore_seconds := none, app_memory_gb_seconds := none, executor_peak := none }
          baseline_reference := none
          job_family := some "fam6"
          run_identifier := some "run-c"
          recommendations := ["act-c"]
          has_issues := true } }

/-- Witness for C6: a family holding a warning and a critical finding renders
only the critical one. -/
theorem report_grouping_keeps_best_finding_witness :
    projGE (lookupGE (buildGrouped [cFact6w, cFact6c]) "fam6")
      = bestFinding (familyFindings [cFact6w, cFact6c] "fam6")
    ∧ bestFinding (familyFindings [cFact6w, cFact6c] "fam6") = some cAnom6c :=
  ⟨report_grouping_keeps_best_finding [cFact6w, cFact6c] "fam6", rfl⟩

/-- Every pair kept by the dedup loop comes from the input and its key was not
already seen. -/
theorem dedupActionPairs_sound (l : List (String × String)) :
    ∀ seen p, p ∈ dedupActionPairs l seen → p ∈ l ∧ actionKey p ∉ seen := by
  induction l with
  | nil => intro seen p hp; cases hp
  | cons q rest ih =>
    intro seen p hp
    by_cases hq : actionKey q ∈ seen
    · rw [dedupActionPairs, if_pos hq] at hp
      obtain ⟨h1, h2⟩ := ih seen p hp
      exact ⟨List.mem_cons_of_mem q h1, h2⟩
    · rw [dedupActionPairs, if_neg hq] at hp
      rcases List.mem_cons.mp hp with hpq | hp2
      · subst hpq
        exact ⟨List.mem_cons_self _ _, hq⟩
      · obtain ⟨h1, h2⟩ := ih (actionKey q :: seen) p hp2
        exact ⟨List.mem_cons_of_mem q h1, fun hmem => h2 (List.mem_cons_of_mem _ hmem)⟩

/-- The keys of the kept pairs are distinct and all fresh relative to seen. -/
theorem dedupActionPairs_keys_fresh (l : List (String × String)) :
    ∀ seen, ((dedupActionPairs l seen).map actionKey).Nodup
      ∧ ∀ k ∈ (dedupActionPairs l seen).map actionKey, k ∉ seen := by
  induction l with
  | nil => intro seen; exact ⟨List.nodup_nil, fun k hk => absurd hk (List.not_mem_nil k)⟩
  | cons q rest ih =>
    intro seen
    by_cases hq : actionKey q ∈ seen
    · rw [dedupActionPairs, if_pos hq]
      exact ih seen
    · rw [dedupActionPairs, if_neg hq]
      obtain ⟨hnd, hfresh⟩ := ih (actionKey q :: seen)
      constructor
      · rw [List.map_cons, List.nodup_cons]
        exact ⟨fun hmem => hfresh _ hmem (List.mem_cons_self _ _), hnd⟩
      · intro k hk
        rcases List.mem_cons.mp hk with hkq | hk2
        · subst hkq; exact hq
        · exact fun hmem => hfresh k hk2 (List.mem_cons_of_mem _ hmem)

/-- The key of every input pair is either already seen or kept. -/
theorem dedupActionPairs_complete (l : List (String × String)) :
    ∀ seen p, p ∈ l →
      actionKey p ∈ seen ∨ actionKey p ∈ (dedupActionPairs l seen).map actionKey := by
  induction l with
  | nil => intro seen p hp; cases hp
  | cons q rest ih =>
    intro seen p hp
    by_cases hq : actionKey q ∈ seen
    · rw [dedupActionPairs, if_pos hq]
      rcases List.mem_cons.mp hp with hpq | hp2
      · subst hpq; exact Or.inl hq
      · exact ih seen p hp2
    · rw [dedupActionPairs, if_neg hq]
      rcases List.mem_cons.mp hp with hpq | hp2
      · subst hpq
        exact Or.inr (by rw [List.map_cons]; exact List.mem_cons_self _ _)
      · rcases ih (actionKey q :: seen) p hp2 with hseen | hres
        · rcases List.mem_cons.mp hseen with hkq | hs2
          · exact Or.inr (by rw [List.map_cons, hkq]; exact List.mem_cons_self _ _)
          · exact Or.inl hs2
        · exact Or.inr (by rw [List.map_cons]; exact List.mem_cons_of_mem _ hres)

/-- Claim C7 as amended: the suggested-actions block is deduplicated by the
combined family::action-text key, at most one rendered line per distinct key
(not per family), every collected pair is represented by its key exactly once,
and the single fallback monitor line appears exactly when nothing at all was
collected. -/
theorem suggested_actions_dedup_by_family_action_key (facts : List DataprocFact) :
    (rawActions facts = [] →
      actionLines facts = ["- Monitor upcoming runs; no actionable regressions flagged."])
  ∧ (rawActions facts ≠ [] →
      ((dedupActionPairs (rawActions facts) []).map actionKey).Nodup
      ∧ (∀ p ∈ rawActions facts,
          actionKey p ∈ (dedupActionPairs (rawActions facts) []).map actionKey)
      ∧ (∀ p ∈ dedupActionPairs (rawActions facts) [], p ∈ rawActions facts)
      ∧ actionLines facts =
          (dedupActionPairs (rawActions facts) []).map (fun p => "- " ++ p.1 ++ ": " ++ p.2)) := by
  constructor
  · intro h
    rw [actionLines]
    rw [h]
    rfl
  · intro h
    have hne : (rawActions facts).isEmpty = false := by
      cases hr : rawActions facts with
      | nil => exact absurd hr h
      | cons a l => rfl
    refine ⟨(dedupActionPairs_keys_fresh (rawActions facts) []).1, ?_, ?_, ?_⟩
    · intro p hp
      rcases dedupActionPairs_complete (rawActions facts) [] p hp with hseen | hres
      · exact absurd hseen (List.not_mem_nil _)
      · exact hres
    · intro p hp
      exact (dedupActionPairs_sound (rawActions facts) [] p hp).1
    · rw [actionLines]
      rw [hne]
      rfl

/-- A warning finding with action text A for the C7 counterexample. -/
def cAnom7a : Anomaly :=
  { kind := "job_runtime_regression", severity := "warning", message := "m1",
    evidence := [], action := some "A" }

/-- A warning finding with action text B for the C7 counterexample. -/
def cAnom7b : Anomaly :=
  { kind := "cost_regression", severity := "warning", message := "m2",
    evidence := [], action := some "B" }

/-- A single has-issues fact of family f whose two findings carry the two
distinct action texts A and B (its recommendations list both). -/
def cFact7 : DataprocFact :=
  { emptyFact with
      job_id := "job-7"
      anomaly_flags := some
        { findings := [cAnom7a, cAnom7b]
          cost_summary := { app_vcore_seconds := none, app_memory_gb_seconds := none, executor_peak := none }
          baseline_reference := none
          job_family := some "f"
          run_identifier := some "run-7"
          recommendations := ["A", "B"]
          has_issues := true } }

/-- Claim C7 as stated is false: one family can render two action lines, one
per distinct action text, because every recommendation of every anomalous fact
joins the collected pairs and deduplication is by family::action key. -/
theorem suggested_actions_two_lines_one_family :
    actionLines [cFact7] = ["- f: A", "- f: B"]
    ∧ (dedupActionPairs (rawActions [cFact7]) []).countP (fun p => p.1 = "f") = 2 := by
  constructor <;> rfl

/-- Witness for the amended C7 at the concrete one-fact batch. -/
theorem suggested_actions_dedup_witness :
    ((dedupActionPairs (rawActions [cFact7]) []).map actionKey).Nodup
    ∧ (∀ p ∈ rawActions [cFact7],
        actionKey p ∈ (dedupActionPairs (rawActions [cFact7]) []).map actionKey)
    ∧ (∀ p ∈ dedupActionPairs (rawActions [cFact7]) [], p ∈ rawActions [cFact7])
    ∧ actionLines [cFact7] =
        (dedupActionPairs (rawActions [cFact7]) []).map (fun p => "- " ++ p.1 ++ ": " ++ p.2) :=
  (suggested_actions_dedup_by_family_action_key [cFact7]).2 (by decide)
